import Mathlib

/-!
Shallow embedding of the CAPTCHA backend verification engine found in
src/backend/server.js: the trust scorer (calculateHumanScore), the
keystroke analyzer (analyzeKeystrokes), and the /api/captcha/verify
request handler, together with theorems settling the specification
claims.

Modelling conventions:
* JavaScript numbers are modelled as exact rationals (ℚ); the
  interaction-time field as an optional integer (absent fields behave
  like undefined, whose numeric comparisons are all false).
* Math.sqrt has no exact rational counterpart, so the embedding is
  parametric in a function sqrt : ℚ → ℚ; every theorem quantifying over
  sqrt therefore holds for any square-root implementation.
* bcrypt.hash / bcrypt.compare form an idealized collision-free hash: a
  stored hash is modelled by the hashed plaintext itself and compare by
  string equality.
* The Math.random()-driven captcha generation is modelled by passing
  the six random character indices (Fin 6 → Fin 36) as an explicit
  input to the handler.
* The express session is the record Session; the handler maps a request
  and a session to a response and an updated session.
-/

/-- One recorded pointer sample, {x, y, t} in the source. -/
structure Point where
  x : ℚ
  y : ℚ
  t : ℚ
deriving DecidableEq

instance : Inhabited Point := ⟨⟨0, 0, 0⟩⟩

/-- One recorded key event, {key, t} in the source; only t is read. -/
structure KeyEvent where
  key : String
  t : ℚ
deriving DecidableEq

/-- Inter-event delays events[i].t - events[i-1].t (server.js 79-83). -/
def keyDelays (events : List KeyEvent) : List ℚ :=
  (events.zip events.tail).map (fun q => q.2.t - q.1.t)

/-- server.js 73-100, analyzeKeystrokes: absent or short event lists fail
safely; otherwise reject when the average delay is below 50ms or the count
of delays under 40ms exceeds half the number of events. -/
def analyzeKeystrokes : Option (List KeyEvent) → Bool
  | none => false
  | some events =>
    if events.length < 5 then false
    else
      let delays := keyDelays events
      let averageDelay : ℚ := delays.sum / (delays.length : ℚ)
      let tooFastCount : ℕ := (delays.filter (fun d => d < 40)).length
      if averageDelay < 50 ∨ (tooFastCount : ℚ) > (events.length : ℚ) / 2 then false
      else true

/-- Euclidean distance between two samples (server.js line 43). -/
def dist (sqrt : ℚ → ℚ) (p1 p2 : Point) : ℚ :=
  sqrt ((p2.x - p1.x) ^ 2 + (p2.y - p1.y) ^ 2)

/-- The consecutive pairs (path[i-1], path[i]) visited by the loop at
server.js 40-49. -/
def consecutivePairs (path : List Point) : List (Point × Point) :=
  path.zip path.tail

/-- Sum of Euclidean deltas over consecutive pairs (server.js 44). -/
def totalDistance (sqrt : ℚ → ℚ) (path : List Point) : ℚ :=
  ((consecutivePairs path).map (fun q => dist sqrt q.1 q.2)).sum

/-- Per-pair velocities, kept only when the time delta exceeds 10ms
(server.js 45-48). -/
def velocities (sqrt : ℚ → ℚ) (path : List Point) : List ℚ :=
  ((consecutivePairs path).filter (fun q => q.2.t - q.1.t > 10)).map
    (fun q => dist sqrt q.1 q.2 / (q.2.t - q.1.t))

/-- Distance from path[0] to path[path.length - 1] (server.js 52-54). -/
def straightLineDistance (sqrt : ℚ → ℚ) (path : List Point) : ℚ :=
  dist sqrt path.headI (path.getLastD default)

/-- totalDistance / (straightLineDistance || 1): the JavaScript falsy
guard replaces a zero divisor by 1 (server.js 55). -/
def complexity (sqrt : ℚ → ℚ) (path : List Point) : ℚ :=
  totalDistance sqrt path /
    (if straightLineDistance sqrt path = 0 then 1 else straightLineDistance sqrt path)

/-- reduce((a,b) => a+b, 0) / (velocities.length || 1) (server.js 58). -/
def avgVelocity (vs : List ℚ) : ℚ :=
  vs.sum / (if vs.length = 0 then 1 else (vs.length : ℚ))

/-- Population variance with the same falsy length guard (server.js 59). -/
def velocityVariance (vs : List ℚ) : ℚ :=
  (vs.map (fun v => (v - avgVelocity vs) ^ 2)).sum /
    (if vs.length = 0 then 1 else (vs.length : ℚ))

/-- interactionTime < c for an optional field: comparing undefined is
false in JavaScript. -/
def jsLt (o : Option Int) (c : Int) : Bool :=
  match o with
  | none => false
  | some n => n < c

/-- interactionTime > c for an optional field. -/
def jsGt (o : Option Int) (c : Int) : Bool :=
  match o with
  | none => false
  | some n => c < n

/-- server.js 21-70, calculateHumanScore: timing short-circuit, timing
bonus, short-path early return, then the three geometric bonuses. -/
def calculateHumanScore (sqrt : ℚ → ℚ) (path : Option (List Point))
    (interactionTime : Option Int) : ℕ :=
  if jsLt interactionTime 500 then 0
  else
    let score1 : ℕ := if jsGt interactionTime 1500 then 30 else 0
    match path with
    | none => score1
    | some p =>
      if p.length < 15 then score1
      else
        let score2 := if complexity sqrt p > (1.2 : ℚ) then score1 + 20 else score1
        let score3 := if p.length > 40 then score2 + 20 else score2
        let score4 :=
          if velocityVariance (velocities sqrt p) > (0.05 : ℚ) then score3 + 30 else score3
        score4

/-- The 36-character alphabet used for challenge generation
(server.js 131, 147). -/
def captchaChars : List Char := "ABCDEFGHIJKLMNOPQRSTUVWXYZ0123456789".toList

/-- The 6-iteration generation loop (server.js 132-133, 148-149), with
the six Math.random()-derived indices supplied explicitly. -/
def genCaptchaText (idx : Fin 6 → Fin 36) : String :=
  String.mk ((List.finRange 6).map (fun i => captchaChars.getD (idx i).val 'A'))

/-- String.prototype.toLowerCase, modelled over the character list (the
engine only handles ASCII challenge text, where Char.toLower agrees with
the JavaScript behaviour). -/
def jsToLower (s : String) : String := String.mk (s.toList.map Char.toLower)

/-- bcrypt.hash modelled as an idealized collision-free hash: the stored
hash is identified with the hashed plaintext. -/
def bcryptHash (s : String) : String := s

/-- bcrypt.compare under the same idealization: string equality. -/
def bcryptCompare (input stored : String) : Bool := input == stored

/-- The express session fields the handler reads and writes. -/
structure Session where
  captchaHash : Option String
  captchaVerified : Bool
deriving DecidableEq

/-- The request body fields destructured at server.js 112; every field
is optional. -/
structure Request where
  mousePath : Option (List Point)
  interactionTime : Option Int
  captchaInput : Option String
  keyEvents : Option (List KeyEvent)

/-- The distinct response bodies of the verify endpoint:
status 400 with verified false and the no-challenge message;
status 200 with verified true;
status 401 with verified false, a message and a fresh captchaText;
status 200 with verified false, challengeRequired true and captchaText. -/
inductive Response where
  | noChallenge : Response
  | verifiedOk : Response
  | textRejected (message : String) (captchaText : String) : Response
  | challengeIssued (captchaText : String) : Response
deriving DecidableEq

/-- Rejection message when the text was right but typing looked robotic
(server.js 130). -/
def msgAutomated : String := "Typing pattern seems automated. Please try again."

/-- Rejection message when the text comparison failed (server.js 130). -/
def msgIncorrect : String := "Incorrect text. Please try again."

/-- server.js 115-138: the text-challenge verification branch. -/
def textVerifyFlow (captchaInput : String) (keyEvents : Option (List KeyEvent))
    (idx : Fin 6 → Fin 36) (s : Session) : Response × Session :=
  match s.captchaHash with
  | none => (Response.noChallenge, s)
  | some h =>
    let isTextCorrect := bcryptCompare (jsToLower captchaInput) h
    let areKeystrokesHuman := analyzeKeystrokes keyEvents
    if isTextCorrect && areKeystrokesHuman then
      (Response.verifiedOk, Session.mk none true)
    else
      let message := if isTextCorrect then msgAutomated else msgIncorrect
      let captchaText := genCaptchaText idx
      (Response.textRejected message captchaText,
        Session.mk (some (bcryptHash (jsToLower captchaText))) s.captchaVerified)

/-- server.js 141-157: the behavioral branch. -/
def behavioralFlow (sqrt : ℚ → ℚ) (mousePath : Option (List Point))
    (interactionTime : Option Int) (idx : Fin 6 → Fin 36) (s : Session) :
    Response × Session :=
  let score := calculateHumanScore sqrt mousePath interactionTime
  if score > 50 then
    (Response.verifiedOk, Session.mk s.captchaHash true)
  else
    let captchaText := genCaptchaText idx
    (Response.challengeIssued captchaText,
      Session.mk (some (bcryptHash (jsToLower captchaText))) s.captchaVerified)

/-- JavaScript truthiness of an optional string: undefined and the empty
string are falsy. -/
def strTruthy : Option String → Bool
  | none => false
  | some s => !(s == "")

/-- server.js 103-157: the whole /api/captcha/verify handler, routed on
the truthiness of captchaInput (server.js 115). -/
def verifyHandler (sqrt : ℚ → ℚ) (req : Request) (idx : Fin 6 → Fin 36)
    (s : Session) : Response × Session :=
  if strTruthy req.captchaInput then
    textVerifyFlow (req.captchaInput.getD "") req.keyEvents idx s
  else
    behavioralFlow sqrt req.mousePath req.interactionTime idx s

/-- Rejection condition as the specification words it, for comparison
with the source condition: mean delay below 50ms, or more than half of
the DELAYS strictly under 40ms. The source instead compares the
fast-delay count against half the EVENT count (one more than the number
of delays). -/
def keystrokeRejectPerClaim (events : List KeyEvent) : Prop :=
  let delays := keyDelays events
  delays.sum / (delays.length : ℚ) < 50 ∨
    ((delays.filter (fun d => d < 40)).length : ℚ) > (delays.length : ℚ) / 2

/-- A key event at time t; the key identity is never read. -/
def evAt (t : ℚ) : KeyEvent := ⟨"a", t⟩

/-- Six events whose five delays are 10,10,10,120,120ms: mean 54ms, three
delays under 40ms. -/
def esMixed : List KeyEvent := [evAt 0, evAt 10, evAt 20, evAt 30, evAt 150, evAt 270]

/-- Six events spaced 80ms apart: human-like typing. -/
def esSlow : List KeyEvent := [evAt 0, evAt 80, evAt 160, evAt 240, evAt 320, evAt 400]

/-- Six events spaced 5ms apart: robotic typing. -/
def esFast : List KeyEvent := [evAt 0, evAt 5, evAt 10, evAt 15, evAt 20, evAt 25]

/-- A fixed random-index oracle: always picks character 0, so the
generated challenge text is AAAAAA. -/
def idx0 : Fin 6 → Fin 36 := fun _ => ⟨0, by decide⟩

/-- A concrete square-root stand-in for closed evaluations. -/
def sqrt0 : ℚ → ℚ := fun _ => 0

/-- A session holding an active challenge hash. -/
def sessionWith (h : String) : Session := Session.mk (some h) false

/-- Submission failing only the text comparison: wrong text, human-like
keystrokes. -/
def reqWrongText : Request := Request.mk none none (some "zzzzzz") (some esSlow)

/-- Submission failing only the keystroke check: correct text for the
stored hash abc123, robotic keystrokes. -/
def reqRoboticKeys : Request := Request.mk none none (some "ABC123") (some esFast)

/-- C1: counterexample — for the six events with delays 10,10,10,120,120ms
the condition of the claim rejects (three of five delays are under 40ms), yet
the source accepts, because it compares the fast-delay count against half
the event count (3 > 3 is false) and the mean is 54ms. -/
theorem keystroke_claim_counterexample :
    analyzeKeystrokes (some esMixed) = true ∧ keystrokeRejectPerClaim esMixed := by
  constructor
  · norm_num [analyzeKeystrokes, keyDelays, esMixed, evAt]
  · norm_num [keystrokeRejectPerClaim, keyDelays, esMixed, evAt]

/-- C1 (amended): for at least five events, analyzeKeystrokes returns
false exactly when the mean inter-event delay is below 50ms or the number
of delays strictly under 40ms exceeds half the number of EVENTS (one more
than the number of delays). -/
theorem analyzeKeystrokes_reject_iff (events : List KeyEvent)
    (h : 5 ≤ events.length) :
    analyzeKeystrokes (some events) = false ↔
      (keyDelays events).sum / ((keyDelays events).length : ℚ) < 50 ∨
        (((keyDelays events).filter (fun d => d < 40)).length : ℚ) >
          (events.length : ℚ) / 2 := by
  have h5 : ¬ events.length < 5 := by omega
  by_cases hc : (keyDelays events).sum / ((keyDelays events).length : ℚ) < 50 ∨
      (((keyDelays events).filter (fun d => d < 40)).length : ℚ) >
        (events.length : ℚ) / 2
  · simp [analyzeKeystrokes, h5, hc]
  · simp [analyzeKeystrokes, h5, hc]

/-- C1 witness: six events spaced 5ms apart satisfy the amended rejection
condition and are indeed rejected. -/
theorem analyzeKeystrokes_reject_iff_witness :
    analyzeKeystrokes (some esFast) = false :=
  (analyzeKeystrokes_reject_iff esFast (by norm_num [esFast])).mpr
    (Or.inl (by norm_num [keyDelays, esFast, evAt]))

/-- C2: counterexample — against the same stored challenge abc123 and the
same fresh challenge text, the submission failing only the text comparison
and the submission failing only the keystroke check receive different
rejection responses: the message field reveals which sub-check failed. -/
theorem rejection_reveals_check_counterexample :
    (verifyHandler sqrt0 reqWrongText idx0 (sessionWith "abc123")).1 ≠
      (verifyHandler sqrt0 reqRoboticKeys idx0 (sessionWith "abc123")).1 := by
  have hslow : analyzeKeystrokes (some esSlow) = true := by
    norm_num [analyzeKeystrokes, keyDelays, esSlow, evAt]
  have hfast : analyzeKeystrokes (some esFast) = false := by
    norm_num [analyzeKeystrokes, keyDelays, esFast, evAt]
  have hwrong : bcryptCompare (jsToLower "zzzzzz") "abc123" = false := by decide
  have hright : bcryptCompare (jsToLower "ABC123") "abc123" = true := by decide
  simp [verifyHandler, reqWrongText, reqRoboticKeys, sessionWith, strTruthy,
    textVerifyFlow, hslow, hfast, hwrong, hright, msgAutomated, msgIncorrect]

/-- C2 (amended): when a challenge is active and either sub-check fails,
the response is the 401 rejection whose message depends on which check
failed — msgAutomated when the text matched but the keystrokes did not,
msgIncorrect when the text did not match — so the rejection is not
identical across the two failure modes. -/
theorem textVerify_rejection_message (sqrt : ℚ → ℚ) (mp : Option (List Point))
    (it : Option Int) (input : String) (keys : Option (List KeyEvent))
    (idx : Fin 6 → Fin 36) (s : Session) (h : String)
    (hin : input ≠ "") (hs : s.captchaHash = some h)
    (hfail : ¬(jsToLower input = h ∧ analyzeKeystrokes keys = true)) :
    (verifyHandler sqrt (Request.mk mp it (some input) keys) idx s).1 =
      Response.textRejected
        (if jsToLower input = h then msgAutomated else msgIncorrect)
        (genCaptchaText idx) := by
  by_cases hEq : jsToLower input = h
  · have hk : analyzeKeystrokes keys = false := by
      rcases Bool.eq_false_or_eq_true (analyzeKeystrokes keys) with hk | hk
      · exact absurd ⟨hEq, hk⟩ hfail
      · exact hk
    simp [verifyHandler, strTruthy, hin, textVerifyFlow, hs, bcryptCompare, hEq, hk]
  · simp [verifyHandler, strTruthy, hin, textVerifyFlow, hs, bcryptCompare, hEq]

/-- C2 witness: a wrong-text, human-typing submission against the stored
hash abc123 yields the incorrect-text rejection message. -/
theorem textVerify_rejection_message_witness :
    (verifyHandler sqrt0 (Request.mk none none (some "zzzzzz") (some esSlow)) idx0
        (sessionWith "abc123")).1 =
      Response.textRejected
        (if jsToLower "zzzzzz" = "abc123" then msgAutomated else msgIncorrect)
        (genCaptchaText idx0) :=
  textVerify_rejection_message sqrt0 none none "zzzzzz" (some esSlow) idx0
    (sessionWith "abc123") "abc123" (by decide) rfl
    (fun hc => absurd hc.1 (by decide))

/-- C3: counterexample — after a FAILED text-verify attempt the secret is
replaced by a fresh challenge, so a second attempt in the same session is
compared against the new secret and rejected with a comparison-based
response, not with the no-active-challenge (not-found) rejection. -/
theorem second_attempt_not_notfound_counterexample :
    (verifyHandler sqrt0 reqWrongText idx0
        (verifyHandler sqrt0 reqWrongText idx0 (sessionWith "abc123")).2).1 ≠
      Response.noChallenge := by
  have hslow : analyzeKeystrokes (some esSlow) = true := by
    norm_num [analyzeKeystrokes, keyDelays, esSlow, evAt]
  have hgen : genCaptchaText idx0 = "AAAAAA" := by decide
  have hwrong : bcryptCompare (jsToLower "zzzzzz") "abc123" = false := by decide
  have hwrong2 : bcryptCompare (jsToLower "zzzzzz") (bcryptHash (jsToLower "AAAAAA")) = false := by
    decide
  simp [verifyHandler, reqWrongText, sessionWith, strTruthy, textVerifyFlow,
    hslow, hgen, hwrong, hwrong2]

/-- C3 (amended): with an active challenge, any text-verify attempt
removes the old secret from the session: on success the challenge slot is
cleared — so a later attempt gets the no-active-challenge rejection —
and on failure it is overwritten with the freshly generated secret, so the
old secret is never compared against again. -/
theorem textVerify_consumes_secret (sqrt : ℚ → ℚ) (mp : Option (List Point))
    (it : Option Int) (input : String) (keys : Option (List KeyEvent))
    (idx : Fin 6 → Fin 36) (s : Session) (h : String)
    (hin : input ≠ "") (hs : s.captchaHash = some h) :
    ((verifyHandler sqrt (Request.mk mp it (some input) keys) idx s).1 =
        Response.verifiedOk →
      (verifyHandler sqrt (Request.mk mp it (some input) keys) idx s).2.captchaHash =
          none ∧
        ∀ (sqrt2 : ℚ → ℚ) (mp2 : Option (List Point)) (it2 : Option Int)
          (input2 : String) (keys2 : Option (List KeyEvent)) (idx2 : Fin 6 → Fin 36),
          input2 ≠ "" →
          (verifyHandler sqrt2 (Request.mk mp2 it2 (some input2) keys2) idx2
              (verifyHandler sqrt (Request.mk mp it (some input) keys) idx s).2).1 =
            Response.noChallenge) ∧
    ((verifyHandler sqrt (Request.mk mp it (some input) keys) idx s).1 ≠
        Response.verifiedOk →
      (verifyHandler sqrt (Request.mk mp it (some input) keys) idx s).2.captchaHash =
        some (bcryptHash (jsToLower (genCaptchaText idx)))) := by
  by_cases hc : (bcryptCompare (jsToLower input) h && analyzeKeystrokes keys) = true
  · constructor
    · intro _
      constructor
      · simp [verifyHandler, strTruthy, hin, textVerifyFlow, hs, hc]
      · intro sqrt2 mp2 it2 input2 keys2 idx2 hin2
        simp [verifyHandler, strTruthy, hin, hin2, textVerifyFlow, hs, hc]
    · intro hne
      exact absurd (by simp [verifyHandler, strTruthy, hin, textVerifyFlow, hs, hc]) hne
  · constructor
    · intro hok
      simp [verifyHandler, strTruthy, hin, textVerifyFlow, hs, hc] at hok
    · intro _
      simp [verifyHandler, strTruthy, hin, textVerifyFlow, hs, hc]

/-- C3 witness: a correct, human-typed submission succeeds and the
follow-up attempt in the resulting session gets the no-active-challenge
rejection. -/
theorem textVerify_consumes_secret_witness :
    (verifyHandler sqrt0 (Request.mk none none (some "ABC123") (some esSlow)) idx0
        (verifyHandler sqrt0 (Request.mk none none (some "ABC123") (some esSlow)) idx0
          (sessionWith "abc123")).2).1 = Response.noChallenge := by
  have H := textVerify_consumes_secret sqrt0 none none "ABC123" (some esSlow) idx0
    (sessionWith "abc123") "abc123" (by decide) rfl
  have hslow : analyzeKeystrokes (some esSlow) = true := by
    norm_num [analyzeKeystrokes, keyDelays, esSlow, evAt]
  have hcmp : bcryptCompare (jsToLower "ABC123") "abc123" = true := by decide
  have hok : (verifyHandler sqrt0 (Request.mk none none (some "ABC123") (some esSlow))
      idx0 (sessionWith "abc123")).1 = Response.verifiedOk := by
    simp [verifyHandler, strTruthy, textVerifyFlow, sessionWith, hslow, hcmp]
  exact (H.1 hok).2 sqrt0 none none "ABC123" (some esSlow) idx0 (by decide)

/-- C4: with an active challenge, a non-empty text submission is verified
exactly when the case-normalized text equals the stored secret and the
keystroke analyzer classifies the key events as human-like. -/
theorem textVerify_accept_iff (sqrt : ℚ → ℚ) (mp : Option (List Point))
    (it : Option Int) (input : String) (keys : Option (List KeyEvent))
    (idx : Fin 6 → Fin 36) (s : Session) (h : String)
    (hin : input ≠ "") (hs : s.captchaHash = some h) :
    (verifyHandler sqrt (Request.mk mp it (some input) keys) idx s).1 =
        Response.verifiedOk ↔
      jsToLower input = h ∧ analyzeKeystrokes keys = true := by
  by_cases h1 : jsToLower input = h
  · by_cases h2 : analyzeKeystrokes keys = true
    · simp [verifyHandler, strTruthy, hin, textVerifyFlow, hs, bcryptCompare, h1, h2]
    · simp [verifyHandler, strTruthy, hin, textVerifyFlow, hs, bcryptCompare, h1, h2]
  · simp [verifyHandler, strTruthy, hin, textVerifyFlow, hs, bcryptCompare, h1]

/-- C4 witness: the correct text typed with 80ms key spacing against the
stored secret abc123 is accepted. -/
theorem textVerify_accept_iff_witness :
    (verifyHandler sqrt0 (Request.mk none none (some "ABC123") (some esSlow)) idx0
        (sessionWith "abc123")).1 = Response.verifiedOk :=
  (textVerify_accept_iff sqrt0 none none "ABC123" (some esSlow) idx0
      (sessionWith "abc123") "abc123" (by decide) rfl).mpr
    ⟨by decide, by norm_num [analyzeKeystrokes, keyDelays, esSlow, evAt]⟩

/-- Helper: every character the generation loop can pick is in the
36-character alphabet. -/
theorem captchaChars_getD_mem : ∀ i : Fin 36, (captchaChars[i.val]?).getD 'A' ∈ captchaChars := by
  decide

/-- C5: with no text answer, the request is accepted exactly when the
trust score exceeds 50; otherwise a challenge is issued whose rendered
text has exactly 6 characters, all from the uppercase-alphanumeric
alphabet. -/
theorem behavioral_accept_iff (sqrt : ℚ → ℚ) (mp : Option (List Point))
    (it : Option Int) (keys : Option (List KeyEvent)) (idx : Fin 6 → Fin 36)
    (s : Session) :
    ((verifyHandler sqrt (Request.mk mp it none keys) idx s).1 =
        Response.verifiedOk ↔ 50 < calculateHumanScore sqrt mp it) ∧
    (¬ 50 < calculateHumanScore sqrt mp it →
      (verifyHandler sqrt (Request.mk mp it none keys) idx s).1 =
        Response.challengeIssued (genCaptchaText idx)) ∧
    (genCaptchaText idx).length = 6 ∧
    (∀ c ∈ (genCaptchaText idx).toList, c ∈ captchaChars) := by
  refine ⟨?_, ?_, ?_, ?_⟩
  · by_cases hsc : 50 < calculateHumanScore sqrt mp it
    · simp [verifyHandler, strTruthy, behavioralFlow, hsc]
    · simp [verifyHandler, strTruthy, behavioralFlow, hsc]
  · intro hsc
    simp [verifyHandler, strTruthy, behavioralFlow, hsc]
  · simp [genCaptchaText, String.length]
  · intro c hc
    simp [genCaptchaText, String.toList] at hc
    obtain ⟨i, hi⟩ := hc
    exact hi ▸ captchaChars_getD_mem (idx i)

/-- C5 witness: with no trajectory and no interaction time the score is 0,
so a 6-character challenge from the alphabet is issued. -/
theorem behavioral_accept_iff_witness :
    (¬ 50 < calculateHumanScore sqrt0 none none) ∧
    (verifyHandler sqrt0 (Request.mk none none none none) idx0
        (sessionWith "h")).1 = Response.challengeIssued (genCaptchaText idx0) ∧
    (genCaptchaText idx0).length = 6 := by
  have H := behavioral_accept_iff sqrt0 none none none idx0 (sessionWith "h")
  exact ⟨by decide, H.2.1 (by decide), H.2.2.1⟩

/-- C6: any interaction time below 500ms yields score 0 regardless of the
trajectory. -/
theorem score_zero_of_fast_interaction (sqrt : ℚ → ℚ)
    (path : Option (List Point)) (t : Int) (h : t < 500) :
    calculateHumanScore sqrt path (some t) = 0 := by
  simp [calculateHumanScore, jsLt, h]

/-- C6 witness: 200ms with an empty trajectory scores 0. -/
theorem score_zero_of_fast_interaction_witness :
    calculateHumanScore sqrt0 (some []) (some 200) = 0 :=
  score_zero_of_fast_interaction sqrt0 (some []) 200 (by decide)

/-- C7: trajectories with fewer than 15 samples never reach the geometric
rules, so the score depends only on the interaction time. -/
theorem score_short_path_time_only (sqrt : ℚ → ℚ) (p1 p2 : List Point)
    (it : Option Int) (h1 : p1.length < 15) (h2 : p2.length < 15) :
    calculateHumanScore sqrt (some p1) it = calculateHumanScore sqrt (some p2) it := by
  by_cases hlt : jsLt it 500 = true
  · simp [calculateHumanScore, hlt]
  · simp [calculateHumanScore, hlt, h1, h2]

/-- C7 witness: the empty trajectory and a one-sample trajectory score the
same at 2000ms. -/
theorem score_short_path_time_only_witness :
    calculateHumanScore sqrt0 (some []) (some 2000) =
      calculateHumanScore sqrt0 (some [⟨0, 0, 0⟩]) (some 2000) :=
  score_short_path_time_only sqrt0 [] [⟨0, 0, 0⟩] (some 2000) (by decide) (by decide)

/-- C8: every score is a sum of the 30, 20, 20 and 30 point contributions
(each present or absent), hence a non-negative integer at most 100, with
no explicit clamp. -/
theorem trustScore_decomposition (sqrt : ℚ → ℚ) (path : Option (List Point))
    (it : Option Int) :
    (∃ a b c d : ℕ, (a = 0 ∨ a = 30) ∧ (b = 0 ∨ b = 20) ∧ (c = 0 ∨ c = 20) ∧
      (d = 0 ∨ d = 30) ∧ calculateHumanScore sqrt path it = a + b + c + d) ∧
    calculateHumanScore sqrt path it ≤ 100 := by
  suffices hex : ∃ a b c d : ℕ, (a = 0 ∨ a = 30) ∧ (b = 0 ∨ b = 20) ∧
      (c = 0 ∨ c = 20) ∧ (d = 0 ∨ d = 30) ∧
      calculateHumanScore sqrt path it = a + b + c + d by
    obtain ⟨a, b, c, d, ha, hb, hc, hd, he⟩ := hex
    refine ⟨⟨a, b, c, d, ha, hb, hc, hd, he⟩, ?_⟩
    rcases ha with rfl | rfl <;> rcases hb with rfl | rfl <;>
      rcases hc with rfl | rfl <;> rcases hd with rfl | rfl <;> omega
  by_cases h0 : jsLt it 500 = true
  · exact ⟨0, 0, 0, 0, Or.inl rfl, Or.inl rfl, Or.inl rfl, Or.inl rfl,
      by simp [calculateHumanScore, h0]⟩
  · rcases path with _ | p
    · refine ⟨if jsGt it 1500 then 30 else 0, 0, 0, 0, ?_, Or.inl rfl, Or.inl rfl,
        Or.inl rfl, ?_⟩
      · split <;> simp
      · simp [calculateHumanScore, h0]
    · by_cases h15 : p.length < 15
      · refine ⟨if jsGt it 1500 then 30 else 0, 0, 0, 0, ?_, Or.inl rfl, Or.inl rfl,
          Or.inl rfl, ?_⟩
        · split <;> simp
        · simp [calculateHumanScore, h0, h15]
      · refine ⟨if jsGt it 1500 then 30 else 0,
          if complexity sqrt p > (1.2 : ℚ) then 20 else 0,
          if p.length > 40 then 20 else 0,
          if velocityVariance (velocities sqrt p) > (0.05 : ℚ) then 30 else 0,
          ?_, ?_, ?_, ?_, ?_⟩
        · split <;> simp
        · split <;> simp
        · split <;> simp
        · split <;> simp
        · simp only [calculateHumanScore, h0, if_false]
          simp [h15]
          split_ifs <;> omega

/-- C9: the divisions of the scorer are guarded: a zero straight-line
distance makes the complexity divisor 1, and an empty velocity list makes
the average velocity and the variance 0. -/
theorem guarded_divisions_total (sqrt : ℚ → ℚ) (p : List Point) (vs : List ℚ)
    (h1 : straightLineDistance sqrt p = 0) (h2 : vs = []) :
    complexity sqrt p = totalDistance sqrt p / 1 ∧
      avgVelocity vs = 0 ∧ velocityVariance vs = 0 := by
  subst h2
  refine ⟨?_, ?_, ?_⟩
  · simp [complexity, h1]
  · simp [avgVelocity]
  · simp [velocityVariance]

/-- C9 witness: under the zero square root the empty path has zero
straight-line distance, and the empty velocity list has zero average and
variance. -/
theorem guarded_divisions_total_witness :
    complexity sqrt0 [] = totalDistance sqrt0 [] / 1 ∧
      avgVelocity [] = 0 ∧ velocityVariance [] = 0 :=
  guarded_divisions_total sqrt0 [] [] rfl rfl

/-- C10: routing precedence — a present non-empty text answer always takes
the text-verify flow; an absent or empty answer always takes the
behavioral flow, whatever the other fields are. -/
theorem routing_precedence (sqrt : ℚ → ℚ) (req : Request) (idx : Fin 6 → Fin 36)
    (s : Session) :
    (∀ a, req.captchaInput = some a → a ≠ "" →
      verifyHandler sqrt req idx s = textVerifyFlow a req.keyEvents idx s) ∧
    (req.captchaInput = none ∨ req.captchaInput = some "" →
      verifyHandler sqrt req idx s =
        behavioralFlow sqrt req.mousePath req.interactionTime idx s) := by
  constructor
  · intro a ha hne
    simp [verifyHandler, strTruthy, ha, hne]
  · rintro (ha | ha) <;> simp [verifyHandler, strTruthy, ha]

/-- C10 witness: a request with answer x routes to the text flow and a
request with an empty answer routes to the behavioral flow. -/
theorem routing_precedence_witness :
    verifyHandler sqrt0 (Request.mk none none (some "x") none) idx0
        (sessionWith "h") = textVerifyFlow "x" none idx0 (sessionWith "h") ∧
    verifyHandler sqrt0 (Request.mk none none (some "") (some esSlow)) idx0
        (sessionWith "h") = behavioralFlow sqrt0 none none idx0 (sessionWith "h") :=
  ⟨(routing_precedence sqrt0 (Request.mk none none (some "x") none) idx0
      (sessionWith "h")).1 "x" rfl (by decide),
   (routing_precedence sqrt0 (Request.mk none none (some "") (some esSlow)) idx0
      (sessionWith "h")).2 (Or.inr rfl)⟩
